import Mathlib

/-!
Shallow embedding of the credential and session lifecycle core of the
auth service (src/auth_service/authentication): models, services and the
rate limiter, translated from models/models.py, services/services.py,
task.py and views/views.py.

Conventions of the embedding:
* timestamps are epoch seconds (Nat); `now` is passed explicitly wherever
  the source reads the clock (timezone.now, datetime.utcnow, time.time);
* random token generation (secrets.token_urlsafe) and fresh primary keys
  are passed in as explicit arguments;
* the Django ORM stores are lists of rows; `objects.get` is `List.find?`,
  row `save` is an update keyed by the primary key, queryset `update` is a
  guarded `List.map`;
* password hashing (make_password / check_password) is modelled by a
  deterministic injective tagging function: the claims depend only on
  whether a raw password matches the stored hash;
* the outbound Organization Directory call is modelled by an
  `Option OrgInfo` argument (`none` = any of the failure modes that
  get_user_org_info raises);
* audit-log writes are not modelled: no claim mentions them and they touch
  no state the claims read.
-/

namespace AuthCore

/-- Model of django.contrib.auth.hashers.make_password: a deterministic
injective stand-in for the salted bcrypt hash. -/
def make_password (raw : String) : String :=
  "bcrypt$" ++ raw

/-- ASCII lowercasing of one character, as str.lower() acts on the ASCII
range of an email address. -/
def lower_char (ch : Char) : Char :=
  if 65 ≤ ch.toNat ∧ ch.toNat ≤ 90 then Char.ofNat (ch.toNat + 32) else ch

/-- Model of str.lower() on email addresses (email.lower() in the source). -/
def lower_string (s : String) : String :=
  ⟨s.data.map lower_char⟩

/-- Row of the auth_users table (models.py, class AuthUser). The auto-managed
created_at / updated_at columns are omitted: nothing in the core reads them. -/
structure AuthUser where
  email : String
  password : String
  is_active : Bool
  is_verified : Bool
  password_changed_at : Nat
  last_login : Option Nat
  failed_login_attempts : Nat
  locked_until : Option Nat
deriving DecidableEq, Repr

/-- AuthUser.check_password: compare the raw password against the stored hash. -/
def AuthUser.check_password (u : AuthUser) (raw : String) : Bool :=
  u.password == make_password raw

/-- AuthUser.set_password: rehash and bump password_changed_at to now. -/
def AuthUser.set_password (u : AuthUser) (raw : String) (now : Nat) : AuthUser :=
  { u with password := make_password raw, password_changed_at := now }

/-- AuthUser.is_locked: locked_until is set and strictly in the future. -/
def AuthUser.is_locked (u : AuthUser) (now : Nat) : Bool :=
  match u.locked_until with
  | some t => decide (t > now)
  | none => false

/-- AuthUser.increment_failed_attempts: bump the counter and lock for
30 minutes once the new count reaches 5. -/
def AuthUser.increment_failed_attempts (u : AuthUser) (now : Nat) : AuthUser :=
  let u' := { u with failed_login_attempts := u.failed_login_attempts + 1 }
  if u'.failed_login_attempts ≥ 5 then
    { u' with locked_until := some (now + 30 * 60) }
  else
    u'

/-- AuthUser.reset_failed_attempts: clear the counter and the lock and
record the successful login time. -/
def AuthUser.reset_failed_attempts (u : AuthUser) (now : Nat) : AuthUser :=
  { u with failed_login_attempts := 0, locked_until := none, last_login := some now }

/-- Session status column (SESSION_STATUS_CHOICES). -/
inductive SessionStatus where
  | active
  | expired
  | revoked
deriving DecidableEq, Repr

/-- Row of the user_sessions table (models.py, class UserSession). The FK to
AuthUser is represented by the unique owner email. -/
structure UserSession where
  id : Nat
  userEmail : String
  session_token : String
  refresh_token : String
  device_id : Option String
  device_type : String
  device_name : Option String
  ip_address : String
  user_agent : Option String
  status : SessionStatus
  created_at : Nat
  last_accessed : Nat
  expires_at : Nat
deriving DecidableEq, Repr

/-- UserSession.is_expired: now is strictly past expires_at. -/
def UserSession.is_expired (s : UserSession) (now : Nat) : Bool :=
  decide (now > s.expires_at)

/-- UserSession.is_active: status is active and not expired. -/
def UserSession.is_active (s : UserSession) (now : Nat) : Bool :=
  s.status == SessionStatus.active && ! s.is_expired now

/-- UserSession.revoke: set status to revoked. -/
def UserSession.revoke (s : UserSession) : UserSession :=
  { s with status := SessionStatus.revoked }

/-- UserSession.refresh with the default new_expires_at = now + 24h:
rotate both tokens, extend expiry, touch last_accessed. -/
def UserSession.refresh (s : UserSession) (newSession newRefresh : String) (now : Nat) :
    UserSession :=
  { s with
      session_token := newSession
      refresh_token := newRefresh
      expires_at := now + 24 * 3600
      last_accessed := now }

/-- Row of email_verifications / password_reset_tokens (models.py, classes
EmailVerification and PasswordResetToken share this shape). -/
structure EphemeralToken where
  id : Nat
  userEmail : String
  token : String
  created_at : Nat
  expires_at : Nat
  is_used : Bool
deriving DecidableEq, Repr

/-- EphemeralToken.is_expired. -/
def EphemeralToken.is_expired (t : EphemeralToken) (now : Nat) : Bool :=
  decide (now > t.expires_at)

/-- EphemeralToken.is_valid: not used and not expired. -/
def EphemeralToken.is_valid (t : EphemeralToken) (now : Nat) : Bool :=
  ! t.is_used && ! t.is_expired now

/-- EphemeralToken.use_token: mark used. -/
def EphemeralToken.use_token (t : EphemeralToken) : EphemeralToken :=
  { t with is_used := true }

/-- The relational store the services read and write. -/
structure Store where
  users : List AuthUser
  sessions : List UserSession
  email_verifications : List EphemeralToken
  reset_tokens : List EphemeralToken
deriving DecidableEq, Repr

/-- AuthUser.objects.get(email=e): first row with that email (the column is
unique). -/
def Store.getUser (st : Store) (email : String) : Option AuthUser :=
  st.users.find? (fun u => u.email == email)

/-- Row save for AuthUser, keyed by the unique email. -/
def Store.saveUser (st : Store) (u : AuthUser) : Store :=
  { st with users := st.users.map (fun v => if v.email == u.email then u else v) }

/-- Row save for UserSession, keyed by the primary key id. -/
def Store.saveSession (st : Store) (s : UserSession) : Store :=
  { st with sessions := st.sessions.map (fun t => if t.id == s.id then s else t) }

/-- Row save for PasswordResetToken, keyed by the primary key id. -/
def Store.saveResetToken (st : Store) (t : EphemeralToken) : Store :=
  { st with reset_tokens := st.reset_tokens.map (fun v => if v.id == t.id then t else v) }

/-- Outcome of AuthenticationService.authenticate_user. The source returns
(user | None, message); user_not_found and invalid_password share the same
caller-visible message but are distinct internally. -/
inductive AuthOutcome where
  | success
  | accountLocked
  | accountInactive
  | invalidPassword
  | userNotFound
deriving DecidableEq, Repr

/-- AuthenticationService.authenticate_user (services.py lines 74-137). -/
def authenticate_user (st : Store) (email password : String) (now : Nat) :
    AuthOutcome × Store :=
  match st.getUser (lower_string email) with
  | none => (AuthOutcome.userNotFound, st)
  | some user =>
    if user.is_locked now then
      (AuthOutcome.accountLocked, st)
    else if ! user.is_active then
      (AuthOutcome.accountInactive, st)
    else if user.check_password password then
      (AuthOutcome.success, st.saveUser (user.reset_failed_attempts now))
    else
      (AuthOutcome.invalidPassword, st.saveUser (user.increment_failed_attempts now))

/-- Payload returned by the Organization Directory lookup
(get_user_org_info). -/
structure OrgInfo where
  user_id : String
  org_id : String
  role : String
deriving DecidableEq, Repr

/-- JWT claim set built by generate_jwt_token. password_changed_at is an
Option to model payload.get returning None when the claim is absent; the
Python truthiness test treats None and 0 alike. -/
structure JwtClaims where
  sub : String
  session_id : Option Nat
  email : String
  org_id : String
  role : String
  exp : Nat
  iat : Nat
  iss : String
  password_changed_at : Option Nat
deriving DecidableEq, Repr

/-- A JWT: its decoded claims plus whether the HS256 signature verifies
against the service secret. -/
structure Jwt where
  claims : JwtClaims
  signature_valid : Bool
deriving DecidableEq, Repr

/-- AuthenticationService.generate_jwt_token (services.py lines 198-216):
1 hour expiry, session id and the password_changed_at snapshot of the
owning user at mint time. -/
def generate_jwt_token (session : UserSession) (user : AuthUser) (org : OrgInfo)
    (now : Nat) : Jwt :=
  { claims :=
      { sub := org.user_id
        session_id := some session.id
        email := user.email
        org_id := org.org_id
        role := org.role
        exp := now + 3600
        iat := now
        iss := "auth-service"
        password_changed_at := some user.password_changed_at }
    signature_valid := true }

/-- Outcome of AuthenticationService.validate_jwt_token. missingUser marks a
session row whose FK target is absent, impossible in the database. -/
inductive ValidateOutcome where
  | valid (payload : JwtClaims)
  | tokenExpired
  | invalidToken
  | sessionExpired
  | sessionNotFound
  | passwordChangeInvalidated
  | missingUser
deriving DecidableEq, Repr

/-- AuthenticationService.validate_jwt_token (services.py lines 293-323):
signature and expiry first, then the session-status check when the claims
carry a session_id, then the password_changed_at freshness check guarded by
Python truthiness (skipped when the claim is absent or zero). -/
def validate_jwt_token (st : Store) (t : Jwt) (now : Nat) : ValidateOutcome :=
  if ! t.signature_valid then
    ValidateOutcome.invalidToken
  else if t.claims.exp ≤ now then
    ValidateOutcome.tokenExpired
  else
    match t.claims.session_id with
    | none => ValidateOutcome.valid t.claims
    | some sid =>
      match st.sessions.find? (fun s => s.id == sid && s.status == SessionStatus.active) with
      | none => ValidateOutcome.sessionNotFound
      | some s =>
        if s.is_expired now then
          ValidateOutcome.sessionExpired
        else
          match st.getUser s.userEmail with
          | none => ValidateOutcome.missingUser
          | some u =>
            match t.claims.password_changed_at with
            | none => ValidateOutcome.valid t.claims
            | some pca =>
              if pca ≠ 0 ∧ pca < u.password_changed_at then
                ValidateOutcome.passwordChangeInvalidated
              else
                ValidateOutcome.valid t.claims

/-- AuthenticationService.create_user_session (services.py lines 172-196).
The lazy sweep filter(user=user, expires_at__lt=now) carries no status
clause in the source: it stamps status=expired on every past-expiry row of
the user, whatever its current status. -/
def create_user_session (st : Store) (user : AuthUser) (ip : String)
    (user_agent device_id : Option String) (device_type : String)
    (device_name : Option String) (freshSession freshRefresh : String)
    (newId now : Nat) : UserSession × Store :=
  let swept := st.sessions.map (fun s =>
    if s.userEmail == user.email && decide (s.expires_at < now) then
      { s with status := SessionStatus.expired }
    else s)
  let session : UserSession :=
    { id := newId
      userEmail := user.email
      session_token := freshSession
      refresh_token := freshRefresh
      device_id := device_id
      device_type := device_type
      device_name := device_name
      ip_address := ip
      user_agent := user_agent
      status := SessionStatus.active
      created_at := now
      last_accessed := now
      expires_at := now + 24 * 3600 }
  (session, { st with sessions := swept ++ [session] })

/-- cleanup_expired_sessions (task.py lines 149-177): mark past-expiry
active sessions expired, then delete sessions created more than 30 days
ago. -/
def cleanup_expired_sessions (st : Store) (now : Nat) : Store :=
  let marked := st.sessions.map (fun s =>
    if decide (s.expires_at < now) && s.status == SessionStatus.active then
      { s with status := SessionStatus.expired }
    else s)
  let kept := marked.filter (fun s => ! decide (s.created_at < now - 30 * 86400))
  { st with sessions := kept }

/-- AuthenticationService.logout_user (services.py lines 218-237): revoke
the active session holding this session token. -/
def logout_user (st : Store) (session_token : String) : Bool × Store :=
  match st.sessions.find?
      (fun s => s.session_token == session_token && s.status == SessionStatus.active) with
  | none => (false, st)
  | some s => (true, st.saveSession s.revoke)

/-- AuthenticationService.logout_all_devices (services.py lines 239-258):
revoke every active session of the user, returning the count. -/
def logout_all_devices (st : Store) (user : AuthUser) : Nat × Store :=
  let isTarget := fun (s : UserSession) =>
    s.userEmail == user.email && s.status == SessionStatus.active
  let n := (st.sessions.filter isTarget).length
  (n, { st with sessions := st.sessions.map (fun s =>
    if isTarget s then { s with status := SessionStatus.revoked } else s) })

/-- Outcome of AuthenticationService.refresh_session. -/
inductive RefreshOutcome where
  | ok (session_token refresh_token : String) (jwt : Jwt)
  | sessionExpired
  | refreshFailed
  | invalidRefreshToken
  | missingUser
deriving DecidableEq, Repr

/-- AuthenticationService.refresh_session (services.py lines 260-291).
session.refresh() rotates and SAVES the token pair before the Organization
Directory call; the exception handler around that call only logs and
returns None, so a directory failure leaves the rotation persisted. -/
def refresh_session (st : Store) (refresh_token freshSession freshRefresh : String)
    (org_result : Option OrgInfo) (now : Nat) : RefreshOutcome × Store :=
  match st.sessions.find?
      (fun s => s.refresh_token == refresh_token && s.status == SessionStatus.active) with
  | none => (RefreshOutcome.invalidRefreshToken, st)
  | some s =>
    if s.is_expired now then
      (RefreshOutcome.sessionExpired, st.saveSession { s with status := SessionStatus.expired })
    else
      let s' := s.refresh freshSession freshRefresh now
      let st' := st.saveSession s'
      match st'.getUser s'.userEmail with
      | none => (RefreshOutcome.missingUser, st')
      | some u =>
        match org_result with
        | none => (RefreshOutcome.refreshFailed, st')
        | some org =>
          (RefreshOutcome.ok freshSession freshRefresh (generate_jwt_token s' u org now), st')

/-- VerificationService.create_email_verification (services.py lines
338-347) together with EmailVerification.create_verification_token: mark
every unused verification of the user used, then insert a fresh 24h
token. -/
def create_email_verification (st : Store) (user : AuthUser) (freshToken : String)
    (newId now : Nat) : String × Store :=
  let invalidated := st.email_verifications.map (fun v =>
    if v.userEmail == user.email && ! v.is_used then
      { v with is_used := true }
    else v)
  let row : EphemeralToken :=
    { id := newId
      userEmail := user.email
      token := freshToken
      created_at := now
      expires_at := now + 24 * 3600
      is_used := false }
  (row.token, { st with email_verifications := invalidated ++ [row] })

/-- PasswordResetToken.create_reset_token (models.py lines 196-208): mark
every unused reset token of the user used, then insert a fresh 1h token. -/
def create_reset_token (st : Store) (user : AuthUser) (freshToken : String)
    (newId now : Nat) : EphemeralToken × Store :=
  let invalidated := st.reset_tokens.map (fun v =>
    if v.userEmail == user.email && ! v.is_used then
      { v with is_used := true }
    else v)
  let row : EphemeralToken :=
    { id := newId
      userEmail := user.email
      token := freshToken
      created_at := now
      expires_at := now + 3600
      is_used := false }
  (row, { st with reset_tokens := invalidated ++ [row] })

/-- VerificationService.create_password_reset_token (services.py lines
376-395): only an existing row with that lowercased email AND
is_active=True yields a token; otherwise the store is untouched and the
caller gets the absorbing answer. -/
def create_password_reset_token (st : Store) (email freshToken : String)
    (newId now : Nat) : Option String × Store :=
  match st.users.find? (fun u => u.email == lower_string email && u.is_active) with
  | none => (none, st)
  | some user =>
    let (row, st') := create_reset_token st user freshToken newId now
    (some row.token, st')

/-- Outcome of VerificationService.reset_password. notFound and
invalidOrExpired are both surfaced as failure messages. -/
inductive ResetOutcome where
  | ok
  | invalidOrExpired
  | notFound
  | missingUser
deriving DecidableEq, Repr

/-- VerificationService.reset_password (services.py lines 397-427): a valid
token rehashes the password of its user, marks the token used, and revokes
every active session of that user; anything else changes nothing. -/
def reset_password (st : Store) (token new_password : String) (now : Nat) :
    ResetOutcome × Store :=
  match st.reset_tokens.find? (fun v => v.token == token) with
  | none => (ResetOutcome.notFound, st)
  | some row =>
    if ! row.is_valid now then
      (ResetOutcome.invalidOrExpired, st)
    else
      match st.getUser row.userEmail with
      | none => (ResetOutcome.missingUser, st)
      | some user =>
        let st1 := st.saveUser (user.set_password new_password now)
        let st2 := st1.saveResetToken row.use_token
        let st3 := { st2 with sessions := st2.sessions.map (fun s =>
          if s.userEmail == user.email && s.status == SessionStatus.active then
            { s with status := SessionStatus.revoked }
          else s) }
        (ResetOutcome.ok, st3)

/-- State change of ChangePasswordView.post (views.py lines 409-500) after
the current password is verified: rehash, then when logout_all_devices is
requested revoke every active session of the user except the one named in
the JWT claims. -/
def change_password (st : Store) (user : AuthUser) (new_password : String)
    (logout_all : Bool) (current_session_id : Option Nat) (now : Nat) : Store :=
  let st1 := st.saveUser (user.set_password new_password now)
  if logout_all then
    { st1 with sessions := st1.sessions.map (fun s =>
      if s.userEmail == user.email && s.status == SessionStatus.active
          && (match current_session_id with
              | some cid => ! (s.id == cid)
              | none => true) then
        { s with status := SessionStatus.revoked }
      else s) }
  else st1

/-- State change of RevokeSessionView.post (views.py lines 548-599): revoke
the active session with the given id owned by the user. -/
def revoke_session (st : Store) (user : AuthUser) (sid : Nat) : Bool × Store :=
  match st.sessions.find? (fun s =>
      s.id == sid && s.userEmail == user.email && s.status == SessionStatus.active) with
  | none => (false, st)
  | some s => (true, st.saveSession s.revoke)

/-- One cache cell of the rate limiter for a fixed (action, identifier)
key: the stored count together with its absolute expiry time, or none when
no live entry exists. -/
def RateCell : Type := Option (Nat × Nat)

instance : DecidableEq RateCell := by
  unfold RateCell
  infer_instance

/-- cache.get(key, 0): the stored count while the entry is live, else 0. -/
def cache_get (c : RateCell) (now : Nat) : Nat :=
  match c with
  | none => 0
  | some (v, e) => if now < e then v else 0

/-- SecurityService.check_rate_limit (services.py lines 435-448): reject
without touching the cache once the live count reaches the limit, otherwise
store count+1 with a fresh TTL of window seconds. -/
def check_rate_limit (c : RateCell) (limit window now : Nat) : Bool × RateCell :=
  let current := cache_get c now
  if current ≥ limit then
    (false, c)
  else
    (true, some (current + 1, now + window))

/-- n successive check_rate_limit calls at one instant for one key,
returning the outcomes in order plus the final cell. -/
def rate_limit_calls (c : RateCell) (limit window now : Nat) : Nat → List Bool × RateCell
  | 0 => ([], c)
  | n + 1 =>
    let (ok, c') := check_rate_limit c limit window now
    let (rest, cfin) := rate_limit_calls c' limit window now n
    (ok :: rest, cfin)

/-- Response of PasswordResetRequestView.post (views.py lines 295-335). -/
inductive ResetRequestResponse where
  | accepted
  | rateLimited
  | badRequest
deriving DecidableEq, Repr

/-- PasswordResetRequestView.post (views.py lines 295-335): serializer
check, rate limit 3 per 3600s keyed by the email, then the service call
whose result is discarded — the 200 body is the same fixed sentence
whether or not a token was created. -/
def password_reset_request_view (st : Store) (email : String) (email_valid : Bool)
    (c : RateCell) (freshToken : String) (newId now : Nat) :
    ResetRequestResponse × Store × RateCell :=
  if ! email_valid then
    (ResetRequestResponse.badRequest, st, c)
  else
    let (allowed, c') := check_rate_limit c 3 3600 now
    if ! allowed then
      (ResetRequestResponse.rateLimited, st, c')
    else
      let (_, st') := create_password_reset_token st email freshToken newId now
      (ResetRequestResponse.accepted, st', c')


/-!
Helper lemmas about the list-level store operations.
-/

/-- Row update through find?: replacing every row matched by q with a fixed
row b that itself satisfies p makes find? p return b, provided the
previously found row a satisfied q. -/
theorem find?_map_replace {α : Type} (p q : α → Bool) (b : α) :
    ∀ (l : List α) (a : α), l.find? p = some a → p b = true → q a = true →
      (l.map (fun v => if q v then b else v)).find? p = some b := by
  intro l
  induction l with
  | nil => intro a ha _ _; simp [List.find?] at ha
  | cons x xs ih =>
    intro a ha hb hqa
    by_cases hqx : q x = true
    · simp only [List.map_cons, if_pos hqx]
      exact List.find?_cons_of_pos _ hb
    · have hqx' : q x = false := by
        cases h : q x
        · rfl
        · exact absurd h hqx
      by_cases hpx : p x = true
      · rw [List.find?_cons_of_pos _ hpx] at ha
        injection ha with ha
        subst ha
        exact absurd hqa hqx
      · have hpx' : ¬ p x := hpx
        rw [List.find?_cons_of_neg _ hpx'] at ha
        simp only [List.map_cons, if_neg hqx]
        rw [List.find?_cons_of_neg _ hpx']
        exact ih a ha hb hqa

/-- Unchanged fields of increment_failed_attempts. -/
theorem increment_keeps_profile (u : AuthUser) (t : Nat) :
    (u.increment_failed_attempts t).email = u.email ∧
    (u.increment_failed_attempts t).password = u.password ∧
    (u.increment_failed_attempts t).is_active = u.is_active := by
  by_cases h : u.failed_login_attempts + 1 ≥ 5 <;>
    simp [AuthUser.increment_failed_attempts, h]

/-- Counter field of increment_failed_attempts. -/
theorem increment_failed_count (u : AuthUser) (t : Nat) :
    (u.increment_failed_attempts t).failed_login_attempts = u.failed_login_attempts + 1 := by
  by_cases h : u.failed_login_attempts + 1 ≥ 5 <;>
    simp [AuthUser.increment_failed_attempts, h]

/-- Lock field of increment_failed_attempts. -/
theorem increment_locked_until (u : AuthUser) (t : Nat) :
    (u.increment_failed_attempts t).locked_until =
      if u.failed_login_attempts + 1 ≥ 5 then some (t + 30 * 60) else u.locked_until := by
  by_cases h : u.failed_login_attempts + 1 ≥ 5 <;>
    simp [AuthUser.increment_failed_attempts, h]

/-- One failed (wrong-password) authentication step, fully characterized:
the outcome, the stored row, and the row lookup in the updated store. -/
theorem authenticate_wrong_step (st : Store) (email password : String) (now : Nat)
    (u : AuthUser)
    (hfind : st.users.find? (fun v => v.email == lower_string email) = some u)
    (hlock : u.is_locked now = false)
    (hactive : u.is_active = true)
    (hpw : u.check_password password = false) :
    authenticate_user st email password now
      = (AuthOutcome.invalidPassword, st.saveUser (u.increment_failed_attempts now)) ∧
    ((authenticate_user st email password now).2).users.find?
        (fun v => v.email == lower_string email) = some (u.increment_failed_attempts now) := by
  have hstep : authenticate_user st email password now
      = (AuthOutcome.invalidPassword, st.saveUser (u.increment_failed_attempts now)) := by
    unfold authenticate_user Store.getUser
    rw [hfind]
    simp [hlock, hactive, hpw]
  refine ⟨hstep, ?_⟩
  rw [hstep]
  have hpu : ((fun v : AuthUser => v.email == lower_string email)
      (u.increment_failed_attempts now)) = true := by
    have h1 := (increment_keeps_profile u now).1
    have h2 := List.find?_some hfind
    simp only [h1]
    exact h2
  have hqa : ((fun v : AuthUser => v.email == (u.increment_failed_attempts now).email) u)
      = true := by
    have h1 := (increment_keeps_profile u now).1
    simp [h1]
  exact find?_map_replace _ _ _ st.users u hfind hpu hqa

/-- The locked branch of authenticate_user: outcome accountLocked and the
store is returned untouched. -/
theorem authenticate_locked_step (st : Store) (email password : String) (now : Nat)
    (u : AuthUser)
    (hfind : st.users.find? (fun v => v.email == lower_string email) = some u)
    (hlock : u.is_locked now = true) :
    authenticate_user st email password now = (AuthOutcome.accountLocked, st) := by
  unfold authenticate_user Store.getUser
  rw [hfind]
  simp [hlock]

/-- The success branch of authenticate_user. -/
theorem authenticate_success_step (st : Store) (email password : String) (now : Nat)
    (u : AuthUser)
    (hfind : st.users.find? (fun v => v.email == lower_string email) = some u)
    (hlock : u.is_locked now = false)
    (hactive : u.is_active = true)
    (hpw : u.check_password password = true) :
    authenticate_user st email password now
      = (AuthOutcome.success, st.saveUser (u.reset_failed_attempts now)) := by
  unfold authenticate_user Store.getUser
  rw [hfind]
  simp [hlock, hactive, hpw]

/-- Run of consecutive failed login attempts at the given instants. -/
def failed_run (st : Store) (email password : String) : List Nat → Store
  | [] => st
  | t :: ts => failed_run ((authenticate_user st email password t).2) email password ts

/-- One wrong-password step below the lock threshold, with the facts needed
to keep iterating. -/
theorem failed_step_all (st : Store) (email wrong : String) (t : Nat) (u : AuthUser)
    (k : Nat)
    (hfind : st.users.find? (fun v => v.email == lower_string email) = some u)
    (hactive : u.is_active = true)
    (hfail : u.failed_login_attempts = k)
    (hk : k + 1 < 5)
    (hlock : u.locked_until = none)
    (hwrong : u.check_password wrong = false) :
    ((authenticate_user st email wrong t).2).users.find?
        (fun v => v.email == lower_string email) = some (u.increment_failed_attempts t) ∧
    (u.increment_failed_attempts t).is_active = true ∧
    (u.increment_failed_attempts t).failed_login_attempts = k + 1 ∧
    (u.increment_failed_attempts t).locked_until = none ∧
    (u.increment_failed_attempts t).check_password wrong = false ∧
    (u.increment_failed_attempts t).password = u.password := by
  obtain ⟨_, hfind'⟩ := authenticate_wrong_step st email wrong t u hfind
    (by simp [AuthUser.is_locked, hlock]) hactive hwrong
  refine ⟨hfind', ?_, ?_, ?_, ?_, (increment_keeps_profile u t).2.1⟩
  · rw [(increment_keeps_profile u t).2.2]; exact hactive
  · rw [increment_failed_count, hfail]
  · rw [increment_locked_until, hfail]
    have : ¬ (k + 1 ≥ 5) := by omega
    simp [this, hlock]
  · unfold AuthUser.check_password at hwrong ⊢
    rw [(increment_keeps_profile u t).2.1]
    exact hwrong

/-- C5: starting from a fresh failure counter, the 5th consecutive failed
login locks the account for exactly 30 minutes from the instant of that 5th
failure; while the lock holds every further authenticate_user call, even
with the correct password, returns accountLocked with the store (hence the
failed-attempt counter) untouched; once locked_until has elapsed, the
correct password succeeds again. -/
theorem c5_fifth_failure_locks_thirty_minutes
    (st : Store) (email wrong correct : String) (u : AuthUser)
    (t1 t2 t3 t4 t5 : Nat)
    (hfind : st.users.find? (fun v => v.email == lower_string email) = some u)
    (hactive : u.is_active = true)
    (hfail0 : u.failed_login_attempts = 0)
    (hlock0 : u.locked_until = none)
    (hwrong : u.check_password wrong = false)
    (hcorrect : u.check_password correct = true) :
    ∃ u5,
      (failed_run st email wrong [t1, t2, t3, t4, t5]).users.find?
          (fun v => v.email == lower_string email) = some u5 ∧
      u5.failed_login_attempts = 5 ∧
      u5.locked_until = some (t5 + 30 * 60) ∧
      (∀ password now2, now2 < t5 + 30 * 60 →
        authenticate_user (failed_run st email wrong [t1, t2, t3, t4, t5]) email password now2
          = (AuthOutcome.accountLocked, failed_run st email wrong [t1, t2, t3, t4, t5])) ∧
      (∀ now3, t5 + 30 * 60 ≤ now3 →
        (authenticate_user (failed_run st email wrong [t1, t2, t3, t4, t5]) email correct
            now3).1 = AuthOutcome.success) := by
  obtain ⟨hf1, ha1, hc1, hl1, hw1, hp1⟩ :=
    failed_step_all st email wrong t1 u 0 hfind hactive hfail0 (by omega) hlock0 hwrong
  set st1 := (authenticate_user st email wrong t1).2
  set u1 := u.increment_failed_attempts t1
  obtain ⟨hf2, ha2, hc2, hl2, hw2, hp2⟩ :=
    failed_step_all st1 email wrong t2 u1 1 hf1 ha1 hc1 (by omega) hl1 hw1
  set st2 := (authenticate_user st1 email wrong t2).2
  set u2 := u1.increment_failed_attempts t2
  obtain ⟨hf3, ha3, hc3, hl3, hw3, hp3⟩ :=
    failed_step_all st2 email wrong t3 u2 2 hf2 ha2 hc2 (by omega) hl2 hw2
  set st3 := (authenticate_user st2 email wrong t3).2
  set u3 := u2.increment_failed_attempts t3
  obtain ⟨hf4, ha4, hc4, hl4, hw4, hp4⟩ :=
    failed_step_all st3 email wrong t4 u3 3 hf3 ha3 hc3 (by omega) hl3 hw3
  set st4 := (authenticate_user st3 email wrong t4).2
  set u4 := u3.increment_failed_attempts t4
  -- the fifth failure crosses the threshold
  obtain ⟨_, hf5⟩ := authenticate_wrong_step st4 email wrong t5 u4 hf4
    (by simp [AuthUser.is_locked, hl4]) ha4 hw4
  set st5 := (authenticate_user st4 email wrong t5).2
  set u5 := u4.increment_failed_attempts t5
  have hrun : failed_run st email wrong [t1, t2, t3, t4, t5] = st5 := rfl
  have hc5 : u5.failed_login_attempts = 5 := by
    rw [increment_failed_count, hc4]
  have hl5 : u5.locked_until = some (t5 + 30 * 60) := by
    rw [increment_locked_until, hc4]
    norm_num
  have hp5 : u5.password = u.password := by
    rw [(increment_keeps_profile u4 t5).2.1, hp4, hp3, hp2, hp1]
  have ha5 : u5.is_active = true := by
    rw [(increment_keeps_profile u4 t5).2.2]; exact ha4
  refine ⟨u5, by rw [hrun]; exact hf5, hc5, hl5, ?_, ?_⟩
  · intro password now2 hnow2
    rw [hrun]
    exact authenticate_locked_step st5 email password now2 u5 hf5
      (by simp [AuthUser.is_locked, hl5]; omega)
  · intro now3 hnow3
    rw [hrun]
    have hcp : u5.check_password correct = true := by
      unfold AuthUser.check_password at hcorrect ⊢
      rw [hp5]
      exact hcorrect
    rw [authenticate_success_step st5 email correct now3 u5 hf5
      (by simp [AuthUser.is_locked, hl5]; omega) ha5 hcp]

/-- Fixture user for concrete witnesses. -/
def wUser : AuthUser :=
  { email := "w@x.com"
    password := make_password "goodpw"
    is_active := true
    is_verified := false
    password_changed_at := 50
    last_login := none
    failed_login_attempts := 0
    locked_until := none }

/-- Fixture store holding only wUser. -/
def wStore : Store :=
  { users := [wUser], sessions := [], email_verifications := [], reset_tokens := [] }

/-- Witness for C5 at a concrete store, user and instants. -/
theorem c5_witness :
    (wStore.users.find? (fun v => v.email == lower_string "w@x.com") = some wUser ∧
      wUser.is_active = true ∧ wUser.failed_login_attempts = 0 ∧
      wUser.locked_until = none ∧ wUser.check_password "badpw" = false ∧
      wUser.check_password "goodpw" = true) ∧
    (∃ u5,
      (failed_run wStore "w@x.com" "badpw" [10, 20, 30, 40, 50]).users.find?
          (fun v => v.email == lower_string "w@x.com") = some u5 ∧
      u5.failed_login_attempts = 5 ∧
      u5.locked_until = some (50 + 30 * 60) ∧
      (∀ password now2, now2 < 50 + 30 * 60 →
        authenticate_user (failed_run wStore "w@x.com" "badpw" [10, 20, 30, 40, 50])
            "w@x.com" password now2
          = (AuthOutcome.accountLocked,
             failed_run wStore "w@x.com" "badpw" [10, 20, 30, 40, 50])) ∧
      (∀ now3, 50 + 30 * 60 ≤ now3 →
        (authenticate_user (failed_run wStore "w@x.com" "badpw" [10, 20, 30, 40, 50])
            "w@x.com" "goodpw" now3).1 = AuthOutcome.success)) :=
  ⟨⟨by decide, by decide, by decide, by decide, by decide, by decide⟩,
   c5_fifth_failure_locks_thirty_minutes wStore "w@x.com" "badpw" "goodpw" wUser
     10 20 30 40 50 (by decide) (by decide) (by decide) (by decide) (by decide) (by decide)⟩

/-- C9: a user whose failure counter already sits at or above 5 and whose
lock has lapsed is re-locked for another 30 minutes by a single further
failed password attempt, because only a successful authentication resets
the counter. -/
theorem c9_single_failure_relocks
    (st : Store) (email wrong : String) (u : AuthUser) (lockL now : Nat)
    (hfind : st.users.find? (fun v => v.email == lower_string email) = some u)
    (hactive : u.is_active = true)
    (hfail : 5 ≤ u.failed_login_attempts)
    (hlockL : u.locked_until = some lockL)
    (hlapsed : lockL ≤ now)
    (hwrong : u.check_password wrong = false) :
    authenticate_user st email wrong now
      = (AuthOutcome.invalidPassword, st.saveUser (u.increment_failed_attempts now)) ∧
    (u.increment_failed_attempts now).locked_until = some (now + 30 * 60) ∧
    (u.increment_failed_attempts now).failed_login_attempts
      = u.failed_login_attempts + 1 := by
  have hlock : u.is_locked now = false := by
    simp [AuthUser.is_locked, hlockL]
    omega
  obtain ⟨h1, _⟩ := authenticate_wrong_step st email wrong now u hfind hlock hactive hwrong
  refine ⟨h1, ?_, increment_failed_count u now⟩
  rw [increment_locked_until]
  have h5 : u.failed_login_attempts + 1 ≥ 5 := by omega
  simp [h5]

/-- Fixture user sitting at the threshold with a lapsed lock. -/
def wLockedUser : AuthUser :=
  { wUser with failed_login_attempts := 5, locked_until := some 100 }

/-- Fixture store holding only wLockedUser. -/
def wLockedStore : Store :=
  { users := [wLockedUser], sessions := [], email_verifications := [], reset_tokens := [] }

/-- Witness for C9 at a concrete store, user and instant. -/
theorem c9_witness :
    (wLockedStore.users.find? (fun v => v.email == lower_string "w@x.com")
        = some wLockedUser ∧
      wLockedUser.is_active = true ∧ 5 ≤ wLockedUser.failed_login_attempts ∧
      wLockedUser.locked_until = some 100 ∧ (100 : Nat) ≤ 200 ∧
      wLockedUser.check_password "badpw" = false) ∧
    (authenticate_user wLockedStore "w@x.com" "badpw" 200
      = (AuthOutcome.invalidPassword,
         wLockedStore.saveUser (wLockedUser.increment_failed_attempts 200)) ∧
    (wLockedUser.increment_failed_attempts 200).locked_until = some (200 + 30 * 60) ∧
    (wLockedUser.increment_failed_attempts 200).failed_login_attempts
      = wLockedUser.failed_login_attempts + 1) :=
  ⟨⟨by decide, by decide, by decide, by decide, by decide, by decide⟩,
   c9_single_failure_relocks wLockedStore "w@x.com" "badpw" wLockedUser 100 200
     (by decide) (by decide) (by decide) (by decide) (by decide) (by decide)⟩

/-- C4 counterexample: with the stored live count already at the limit
(key counted 10 times, limit 10, window 300s), the 11th attempt is rejected
AND the stored counter stays at 10 — check_rate_limit does not increment on
a rejected attempt, refuting the increments-on-every-attempt part of the
claim. -/
theorem c4_counterexample :
    (check_rate_limit (some (10, 1000)) 10 300 5).1 = false ∧
    (check_rate_limit (some (10, 1000)) 10 300 5).2 = some (10, 1000) ∧
    cache_get (check_rate_limit (some (10, 1000)) 10 300 5).2 5 = 10 := by
  refine ⟨rfl, rfl, rfl⟩

/-- C4 amended: the counter increments only on allowed attempts; once the
live count has reached the limit every further attempt is rejected with
the cache cell left untouched, until the entry expires; with limit 10 and
window 300s the first 10 calls pass and the 11th is rejected leaving the
count at 10; once the window has elapsed the entry is dead, so the counter
reads 0 and calls succeed again. -/
theorem c4_rate_limit_amended :
    (∀ c limit window now, limit ≤ cache_get c now →
      check_rate_limit c limit window now = (false, c)) ∧
    (∀ c limit window now, cache_get c now < limit →
      check_rate_limit c limit window now
        = (true, some (cache_get c now + 1, now + window))) ∧
    ((rate_limit_calls none 10 300 0 11).1
      = [true, true, true, true, true, true, true, true, true, true, false] ∧
      (rate_limit_calls none 10 300 0 11).2 = some (10, 0 + 300)) ∧
    (∀ t n, cache_get (some (n, t + 300)) (t + 300) = 0 ∧
      (check_rate_limit (some (n, t + 300)) 10 300 (t + 300)).1 = true) := by
  refine ⟨?_, ?_, ?_, ?_⟩
  · intro c limit window now h
    simp [check_rate_limit]
    omega
  · intro c limit window now h
    have h' : ¬ (limit ≤ cache_get c now) := by omega
    simp [check_rate_limit, h']
  · decide
  · intro t n
    have h : ¬ (t + 300 < t + 300) := by omega
    constructor
    · simp [cache_get, h]
    · simp [check_rate_limit, cache_get, h]

/-- Witness for C4 amended at concrete cells and instants. -/
theorem c4_witness :
    ((10 : Nat) ≤ cache_get (some (10, 400)) 20 ∧
      check_rate_limit (some (10, 400)) 10 300 20 = (false, some (10, 400))) ∧
    (cache_get (some (3, 400)) 20 < 10 ∧
      check_rate_limit (some (3, 400)) 10 300 20
        = (true, some (cache_get (some (3, 400)) 20 + 1, 20 + 300))) ∧
    (cache_get (some (4, 7 + 300)) (7 + 300) = 0 ∧
      (check_rate_limit (some (4, 7 + 300)) 10 300 (7 + 300)).1 = true) :=
  ⟨⟨by decide, c4_rate_limit_amended.1 (some (10, 400)) 10 300 20 (by decide)⟩,
   ⟨by decide, c4_rate_limit_amended.2.1 (some (3, 400)) 10 300 20 (by decide)⟩,
   c4_rate_limit_amended.2.2.2 7 4⟩

/-- C6: creating a fresh ephemeral token (email verification via the
service, password reset via the model classmethod) first marks every prior
unused token of that purpose for that user as used, so afterwards the only
unused row of that purpose for the user is the fresh one — at most one
valid token per purpose per user. -/
theorem c6_one_valid_token_per_purpose
    (st : Store) (user : AuthUser) (ftok : String) (nid now : Nat) :
    (∀ v ∈ ((create_email_verification st user ftok nid now).2).email_verifications,
        v.userEmail = user.email → v.is_used = false →
        v = ⟨nid, user.email, ftok, now, now + 24 * 3600, false⟩) ∧
    (∀ v w, v ∈ ((create_email_verification st user ftok nid now).2).email_verifications →
        w ∈ ((create_email_verification st user ftok nid now).2).email_verifications →
        v.userEmail = user.email → w.userEmail = user.email →
        v.is_valid now = true → w.is_valid now = true → v = w) ∧
    (∀ v ∈ ((create_reset_token st user ftok nid now).2).reset_tokens,
        v.userEmail = user.email → v.is_used = false →
        v = ⟨nid, user.email, ftok, now, now + 3600, false⟩) ∧
    (∀ v w, v ∈ ((create_reset_token st user ftok nid now).2).reset_tokens →
        w ∈ ((create_reset_token st user ftok nid now).2).reset_tokens →
        v.userEmail = user.email → w.userEmail = user.email →
        v.is_valid now = true → w.is_valid now = true → v = w) := by
  have key : ∀ (l : List EphemeralToken) (row : EphemeralToken),
      row.is_used = false →
      ∀ v ∈ (l.map (fun v =>
          if v.userEmail == user.email && ! v.is_used then
            { v with is_used := true } else v)) ++ [row],
        v.userEmail = user.email → v.is_used = false → v = row := by
    intro l row _ v hv hmail hused
    rcases List.mem_append.1 hv with hv | hv
    · obtain ⟨x, _, heq⟩ := List.mem_map.1 hv
      by_cases hcond : (x.userEmail == user.email && ! x.is_used) = true
      · rw [if_pos hcond] at heq
        rw [← heq] at hused
        simp at hused
      · rw [if_neg hcond] at heq
        subst heq
        simp only [Bool.and_eq_true, beq_iff_eq, Bool.not_eq_true'] at hcond
        exact absurd ⟨hmail, hused⟩ hcond
    · simpa using hv
  have hv1 := key st.email_verifications
    ⟨nid, user.email, ftok, now, now + 24 * 3600, false⟩ rfl
  have hv2 := key st.reset_tokens
    ⟨nid, user.email, ftok, now, now + 3600, false⟩ rfl
  refine ⟨hv1, ?_, hv2, ?_⟩
  · intro v w hvmem hwmem hvm hwm hvv hwv
    have huv : v.is_used = false := by
      have := hvv
      unfold EphemeralToken.is_valid at this
      simp only [Bool.and_eq_true, Bool.not_eq_true'] at this
      exact this.1
    have huw : w.is_used = false := by
      have := hwv
      unfold EphemeralToken.is_valid at this
      simp only [Bool.and_eq_true, Bool.not_eq_true'] at this
      exact this.1
    rw [hv1 v hvmem hvm huv, hv1 w hwmem hwm huw]
  · intro v w hvmem hwmem hvm hwm hvv hwv
    have huv : v.is_used = false := by
      have := hvv
      unfold EphemeralToken.is_valid at this
      simp only [Bool.and_eq_true, Bool.not_eq_true'] at this
      exact this.1
    have huw : w.is_used = false := by
      have := hwv
      unfold EphemeralToken.is_valid at this
      simp only [Bool.and_eq_true, Bool.not_eq_true'] at this
      exact this.1
    rw [hv2 v hvmem hvm huv, hv2 w hwmem hwm huw]

/-- Fixture store with one unused verification token and one unused reset
token for wUser, to witness the token-invalidation invariant. -/
def vStore : Store :=
  { users := [wUser]
    sessions := []
    email_verifications := [⟨3, "w@x.com", "old-ev", 10, 10 + 24 * 3600, false⟩]
    reset_tokens := [⟨4, "w@x.com", "old-rt", 10, 10 + 3600, false⟩] }

/-- Witness for C6 at a concrete store carrying a prior unused token of
each purpose. -/
theorem c6_witness :
    ((∀ v ∈ ((create_email_verification vStore wUser "fresh" 9 20).2).email_verifications,
        v.userEmail = wUser.email → v.is_used = false →
        v = ⟨9, wUser.email, "fresh", 20, 20 + 24 * 3600, false⟩) ∧
     (∀ v w, v ∈ ((create_email_verification vStore wUser "fresh" 9 20).2).email_verifications →
        w ∈ ((create_email_verification vStore wUser "fresh" 9 20).2).email_verifications →
        v.userEmail = wUser.email → w.userEmail = wUser.email →
        v.is_valid 20 = true → w.is_valid 20 = true → v = w) ∧
     (∀ v ∈ ((create_reset_token vStore wUser "fresh" 9 20).2).reset_tokens,
        v.userEmail = wUser.email → v.is_used = false →
        v = ⟨9, wUser.email, "fresh", 20, 20 + 3600, false⟩) ∧
     (∀ v w, v ∈ ((create_reset_token vStore wUser "fresh" 9 20).2).reset_tokens →
        w ∈ ((create_reset_token vStore wUser "fresh" 9 20).2).reset_tokens →
        v.userEmail = wUser.email → w.userEmail = wUser.email →
        v.is_valid 20 = true → w.is_valid 20 = true → v = w)) ∧
    ((create_email_verification vStore wUser "fresh" 9 20).2).email_verifications
      = [⟨3, "w@x.com", "old-ev", 10, 10 + 24 * 3600, true⟩,
         ⟨9, "w@x.com", "fresh", 20, 20 + 24 * 3600, false⟩] :=
  ⟨c6_one_valid_token_per_purpose vStore wUser "fresh" 9 20, by decide⟩

/-- Full characterization of a successful reset_password call. -/
theorem reset_password_spec (st : Store) (tok pw : String) (now : Nat)
    (row : EphemeralToken) (user : AuthUser)
    (hrow : st.reset_tokens.find? (fun v => v.token == tok) = some row)
    (hvalid : row.is_valid now = true)
    (huser : st.users.find? (fun v => v.email == row.userEmail) = some user) :
    reset_password st tok pw now =
      (ResetOutcome.ok,
       { users := st.users.map (fun v =>
           if v.email == user.email then user.set_password pw now else v)
         sessions := st.sessions.map (fun s =>
           if s.userEmail == user.email && s.status == SessionStatus.active then
             { s with status := SessionStatus.revoked } else s)
         email_verifications := st.email_verifications
         reset_tokens := st.reset_tokens.map (fun v =>
           if v.id == row.id then row.use_token else v) }) := by
  unfold reset_password Store.getUser
  rw [hrow]
  dsimp only
  rw [if_neg (show ¬ ((! row.is_valid now) = true) by simp [hvalid])]
  rw [huser]
  rfl

/-- A reset token that is already marked used makes reset_password fail and
leave the store untouched. -/
theorem reset_password_used (st : Store) (tok pw : String) (now : Nat)
    (row : EphemeralToken)
    (hrow : st.reset_tokens.find? (fun v => v.token == tok) = some row)
    (hused : row.is_used = true) :
    reset_password st tok pw now = (ResetOutcome.invalidOrExpired, st) := by
  unfold reset_password
  rw [hrow]
  dsimp only
  rw [if_pos (show (! row.is_valid now) = true by simp [EphemeralToken.is_valid, hused])]

/-- C7: a valid password-reset token, once consumed, has rehashed the user
password with password_changed_at bumped to the reset instant, is itself
marked used, and every active session of the user is revoked; replaying the
same token afterwards fails as invalid/expired and leaves the store
untouched. -/
theorem c7_reset_token_single_use
    (st : Store) (tok pw pw2 : String) (now now2 : Nat)
    (row : EphemeralToken) (user : AuthUser)
    (hrow : st.reset_tokens.find? (fun v => v.token == tok) = some row)
    (hvalid : row.is_valid now = true)
    (huser : st.users.find? (fun v => v.email == row.userEmail) = some user) :
    (reset_password st tok pw now).1 = ResetOutcome.ok ∧
    ((reset_password st tok pw now).2).users.find? (fun v => v.email == row.userEmail)
      = some (user.set_password pw now) ∧
    (user.set_password pw now).password = make_password pw ∧
    (user.set_password pw now).password_changed_at = now ∧
    ((reset_password st tok pw now).2).reset_tokens.find? (fun v => v.token == tok)
      = some row.use_token ∧
    row.use_token.is_used = true ∧
    (∀ s' ∈ ((reset_password st tok pw now).2).sessions,
        s'.userEmail = user.email → s'.status ≠ SessionStatus.active) ∧
    (∀ s ∈ st.sessions, s.userEmail = user.email → s.status = SessionStatus.active →
        { s with status := SessionStatus.revoked } ∈ ((reset_password st tok pw now).2).sessions) ∧
    reset_password ((reset_password st tok pw now).2) tok pw2 now2
      = (ResetOutcome.invalidOrExpired, (reset_password st tok pw now).2) := by
  have hspec := reset_password_spec st tok pw now row user hrow hvalid huser
  have hmail := List.find?_some huser
  have htok := List.find?_some hrow
  have husers : ((reset_password st tok pw now).2).users.find?
      (fun v => v.email == row.userEmail) = some (user.set_password pw now) := by
    rw [hspec]
    exact find?_map_replace _ _ _ st.users user huser
      (by simpa [AuthUser.set_password] using hmail) (by simp)
  have htoks : ((reset_password st tok pw now).2).reset_tokens.find?
      (fun v => v.token == tok) = some row.use_token := by
    rw [hspec]
    exact find?_map_replace _ _ _ st.reset_tokens row hrow
      (by simpa [EphemeralToken.use_token] using htok) (by simp)
  refine ⟨by rw [hspec], husers, rfl, rfl, htoks, rfl, ?_, ?_, ?_⟩
  · intro s' hs' hmail' hstat
    rw [hspec] at hs'
    obtain ⟨x, _, heq⟩ := List.mem_map.1 hs'
    by_cases hcond : (x.userEmail == user.email && x.status == SessionStatus.active) = true
    · rw [if_pos hcond] at heq
      rw [← heq] at hstat
      simp at hstat
    · rw [if_neg hcond] at heq
      subst heq
      simp only [Bool.and_eq_true, beq_iff_eq] at hcond
      exact hcond ⟨hmail', hstat⟩
  · intro s hs hmail' hstat
    rw [hspec]
    refine List.mem_map.2 ⟨s, hs, ?_⟩
    rw [if_pos (by simp [hmail', hstat])]
  · exact reset_password_used _ tok pw2 now2 row.use_token htoks rfl

/-- Fixture user owning a session and a reset token. -/
def rUser : AuthUser :=
  { email := "r@x.com"
    password := make_password "oldpw"
    is_active := true
    is_verified := true
    password_changed_at := 100
    last_login := some 120
    failed_login_attempts := 0
    locked_until := none }

/-- Fixture active session of rUser. -/
def rSession : UserSession :=
  { id := 1
    userEmail := "r@x.com"
    session_token := "rs"
    refresh_token := "rr"
    device_id := none
    device_type := "web"
    device_name := none
    ip_address := "9.9.9.9"
    user_agent := none
    status := SessionStatus.active
    created_at := 120
    last_accessed := 120
    expires_at := 100000 }

/-- Fixture unused reset token of rUser. -/
def rToken : EphemeralToken :=
  ⟨7, "r@x.com", "tok1", 150, 150 + 3600, false⟩

/-- Fixture store for the reset scenario. -/
def rStore : Store :=
  { users := [rUser]
    sessions := [rSession]
    email_verifications := []
    reset_tokens := [rToken] }

/-- Witness for C7 at the concrete reset scenario. -/
theorem c7_witness :
    (rStore.reset_tokens.find? (fun v => v.token == "tok1") = some rToken ∧
      rToken.is_valid 200 = true ∧
      rStore.users.find? (fun v => v.email == rToken.userEmail) = some rUser) ∧
    ((reset_password rStore "tok1" "newpw" 200).1 = ResetOutcome.ok ∧
      ((reset_password rStore "tok1" "newpw" 200).2).users.find?
          (fun v => v.email == rToken.userEmail) = some (rUser.set_password "newpw" 200) ∧
      (rUser.set_password "newpw" 200).password = make_password "newpw" ∧
      (rUser.set_password "newpw" 200).password_changed_at = 200 ∧
      ((reset_password rStore "tok1" "newpw" 200).2).reset_tokens.find?
          (fun v => v.token == "tok1") = some rToken.use_token ∧
      rToken.use_token.is_used = true ∧
      (∀ s' ∈ ((reset_password rStore "tok1" "newpw" 200).2).sessions,
          s'.userEmail = rUser.email → s'.status ≠ SessionStatus.active) ∧
      (∀ s ∈ rStore.sessions, s.userEmail = rUser.email →
          s.status = SessionStatus.active →
          { s with status := SessionStatus.revoked }
            ∈ ((reset_password rStore "tok1" "newpw" 200).2).sessions) ∧
      reset_password ((reset_password rStore "tok1" "newpw" 200).2) "tok1" "zz" 500
        = (ResetOutcome.invalidOrExpired, (reset_password rStore "tok1" "newpw" 200).2)) :=
  ⟨⟨by decide, by decide, by decide⟩,
   c7_reset_token_single_use rStore "tok1" "newpw" "zz" 200 500 rToken rUser
     (by decide) (by decide) (by decide)⟩

/-- Fixture organization directory payload. -/
def rOrg : OrgInfo := { user_id := "ou1", org_id := "og1", role := "member" }

/-- C3: concrete run showing the refresh-rotation bug. On an active,
unexpired session, refresh_session with a failing Organization Directory
call returns the failure outcome, yet the stored session keeps the rotated
token pair: the old refresh token "rr" is no longer on record even though
the caller never received the new pair. The spec requires that no partial
rotation be persisted on directory failure. -/
theorem c3_directory_failure_leaves_rotation_persisted :
    (refresh_session rStore "rr" "s1" "r1" none 500).1 = RefreshOutcome.refreshFailed ∧
    ((refresh_session rStore "rr" "s1" "r1" none 500).2).sessions
      = [rSession.refresh "s1" "r1" 500] ∧
    ((refresh_session rStore "rr" "s1" "r1" none 500).2).sessions.find?
        (fun s => s.refresh_token == "rr") = none := by
  decide

/-- C1 counterexample: a token minted before a password reset is indeed
rejected afterwards, but with the session-not-found outcome, not the
token-invalidated-by-password-change outcome, because the reset revoked the
session named in the claims; signature and expiry are still good. -/
theorem c1_counterexample :
    (generate_jwt_token rSession rUser rOrg 200).signature_valid = true ∧
    400 < (generate_jwt_token rSession rUser rOrg 200).claims.exp ∧
    ((reset_password rStore "tok1" "npw" 300).2).users.find?
        (fun v => v.email == "r@x.com") = some (rUser.set_password "npw" 300) ∧
    rUser.password_changed_at < (rUser.set_password "npw" 300).password_changed_at ∧
    validate_jwt_token ((reset_password rStore "tok1" "npw" 300).2)
        (generate_jwt_token rSession rUser rOrg 200) 400
      = ValidateOutcome.sessionNotFound ∧
    validate_jwt_token ((reset_password rStore "tok1" "npw" 300).2)
        (generate_jwt_token rSession rUser rOrg 200) 400
      ≠ ValidateOutcome.passwordChangeInvalidated := by
  decide

/-- C1 amended: a pre-change access token never validates after the
password change; the outcome is passwordChangeInvalidated when the session
in its claims is still active and unexpired (the change-password path,
which keeps the current session), and sessionNotFound after a password
reset, whose side effect of revoking every session of the user makes the
active-session lookup fail first. -/
theorem c1_pre_change_token_rejected :
    (∀ (st : Store) (smint s : UserSession) (umint u : AuthUser) (org : OrgInfo)
        (tmint now : Nat),
      st.sessions.find? (fun x => x.id == smint.id && x.status == SessionStatus.active)
          = some s →
      s.is_expired now = false →
      st.getUser s.userEmail = some u →
      now < tmint + 3600 →
      0 < umint.password_changed_at →
      umint.password_changed_at < u.password_changed_at →
      validate_jwt_token st (generate_jwt_token smint umint org tmint) now
        = ValidateOutcome.passwordChangeInvalidated) ∧
    (∀ (st : Store) (tok pw : String) (now : Nat) (row : EphemeralToken)
        (user : AuthUser) (smint : UserSession) (umint : AuthUser) (org : OrgInfo)
        (tmint now2 : Nat),
      st.reset_tokens.find? (fun v => v.token == tok) = some row →
      row.is_valid now = true →
      st.users.find? (fun v => v.email == row.userEmail) = some user →
      (∀ x ∈ st.sessions, x.id = smint.id → x.userEmail = user.email) →
      now2 < tmint + 3600 →
      validate_jwt_token ((reset_password st tok pw now).2)
          (generate_jwt_token smint umint org tmint) now2
        = ValidateOutcome.sessionNotFound) := by
  constructor
  · intro st smint s umint u org tmint now hfind hexp hu hnow hpos hlt
    unfold validate_jwt_token generate_jwt_token
    dsimp only
    rw [if_neg (show ¬ ((tmint + 3600 ≤ now)) by omega)]
    rw [hfind]
    dsimp only
    rw [if_neg (show ¬ (s.is_expired now = true) by simp [hexp])]
    rw [hu]
    dsimp only
    rw [if_pos (show umint.password_changed_at ≠ 0 ∧
        umint.password_changed_at < u.password_changed_at from ⟨by omega, hlt⟩)]
    simp
  · intro st tok pw now row user smint umint org tmint now2 hrow hvalid huser hown hnow
    have hspec := reset_password_spec st tok pw now row user hrow hvalid huser
    rw [hspec]
    unfold validate_jwt_token generate_jwt_token
    dsimp only
    rw [if_neg (show ¬ ((tmint + 3600 ≤ now2)) by omega)]
    have hnone : (List.map (fun s =>
        if s.userEmail == user.email && s.status == SessionStatus.active then
          { s with status := SessionStatus.revoked } else s) st.sessions).find?
        (fun x => x.id == smint.id && x.status == SessionStatus.active) = none := by
      rw [List.find?_eq_none]
      intro x' hx'
      obtain ⟨x, hx, heq⟩ := List.mem_map.1 hx'
      by_cases hcond : (x.userEmail == user.email && x.status == SessionStatus.active) = true
      · rw [if_pos hcond] at heq
        rw [← heq]
        simp
      · rw [if_neg hcond] at heq
        subst heq
        simp only [Bool.and_eq_true, beq_iff_eq] at hcond ⊢
        intro hcontr
        by_cases hid : x.id = smint.id
        · exact hcond ⟨hown x hx hid, hcontr.2⟩
        · exact hid hcontr.1
    rw [hnone]
    simp

/-- Fixture user after a password change, with the same email as rUser but
a newer password_changed_at. -/
def rUserChanged : AuthUser :=
  { rUser with password := make_password "changed", password_changed_at := 500 }

/-- Fixture store for the change-password path of C1: the session is still
active but the stored user has a newer password_changed_at. -/
def cStore : Store :=
  { users := [rUserChanged]
    sessions := [rSession]
    email_verifications := []
    reset_tokens := [] }

/-- Witness for C1 amended: both the change path (still-active session,
outcome passwordChangeInvalidated) and the reset path (outcome
sessionNotFound) at concrete stores. -/
theorem c1_witness :
    (cStore.sessions.find?
        (fun x => x.id == rSession.id && x.status == SessionStatus.active) = some rSession ∧
      rSession.is_expired 600 = false ∧
      cStore.getUser rSession.userEmail = some rUserChanged ∧
      (600 : Nat) < 200 + 3600 ∧
      0 < rUser.password_changed_at ∧
      rUser.password_changed_at < rUserChanged.password_changed_at) ∧
    validate_jwt_token cStore (generate_jwt_token rSession rUser rOrg 200) 600
      = ValidateOutcome.passwordChangeInvalidated ∧
    validate_jwt_token ((reset_password rStore "tok1" "npw" 300).2)
        (generate_jwt_token rSession rUser rOrg 200) 400
      = ValidateOutcome.sessionNotFound :=
  ⟨⟨by decide, by decide, by decide, by decide, by decide, by decide⟩,
   c1_pre_change_token_rejected.1 cStore rSession rSession rUser rUserChanged rOrg 200 600
     (by decide) (by decide) (by decide) (by decide) (by decide) (by decide),
   c1_pre_change_token_rejected.2 rStore "tok1" "npw" 300 rToken rUser rSession rUser rOrg
     200 400 (by decide) (by decide) (by decide) (by decide) (by decide)⟩

/-- Fixture store whose only session is revoked, with rUser present. -/
def zStore : Store :=
  { users := [rUser]
    sessions := [{ rSession with status := SessionStatus.revoked }]
    email_verifications := []
    reset_tokens := [] }

/-- Fixture JWT carrying a session_id and a zero password_changed_at
claim. -/
def zJwt : Jwt :=
  { claims :=
      { sub := "ou1"
        session_id := some 1
        email := "r@x.com"
        org_id := "og1"
        role := "member"
        exp := 1000
        iat := 0
        iss := "auth-service"
        password_changed_at := some 0 }
    signature_valid := true }

/-- C8 counterexample: a signed, unexpired JWT that carries a session_id
and a zero password_changed_at claim is NOT returned as valid when the
referenced session is not active — the session-status check still runs in
that branch; only the freshness check is skipped. -/
theorem c8_counterexample :
    zJwt.signature_valid = true ∧
    10 < zJwt.claims.exp ∧
    validate_jwt_token zStore zJwt 10 = ValidateOutcome.sessionNotFound ∧
    validate_jwt_token zStore zJwt 10 ≠ ValidateOutcome.valid zJwt.claims := by
  decide

/-- C8 amended: for a signed, unexpired JWT, claims without a session_id
are returned valid with no session lookup and no freshness check at all
(the store is arbitrary); claims with a session_id still undergo the
session check, but when the password_changed_at claim is absent or zero
the freshness check is skipped and the payload is returned valid no matter
how new the stored password_changed_at of the user is. -/
theorem c8_zero_claim_skips_freshness_check :
    (∀ (st : Store) (t : Jwt) (now : Nat),
      t.signature_valid = true →
      now < t.claims.exp →
      t.claims.session_id = none →
      validate_jwt_token st t now = ValidateOutcome.valid t.claims) ∧
    (∀ (st : Store) (t : Jwt) (now sid : Nat) (s : UserSession) (u : AuthUser),
      t.signature_valid = true →
      now < t.claims.exp →
      t.claims.session_id = some sid →
      st.sessions.find? (fun x => x.id == sid && x.status == SessionStatus.active)
          = some s →
      s.is_expired now = false →
      st.getUser s.userEmail = some u →
      (t.claims.password_changed_at = none ∨ t.claims.password_changed_at = some 0) →
      validate_jwt_token st t now = ValidateOutcome.valid t.claims) := by
  constructor
  · intro st t now hsig hexp hsid
    unfold validate_jwt_token
    rw [hsig, hsid]
    rw [if_neg (show ¬ ((!true) = true) by decide)]
    rw [if_neg (show ¬ (t.claims.exp ≤ now) by omega)]
  · intro st t now sid s u hsig hexp hsid hfind hsexp hu hpca
    unfold validate_jwt_token
    rw [hsig, hsid]
    rw [if_neg (show ¬ ((!true) = true) by decide)]
    rw [if_neg (show ¬ (t.claims.exp ≤ now) by omega)]
    dsimp only
    rw [hfind]
    dsimp only
    rw [if_neg (show ¬ (s.is_expired now = true) by simp [hsexp])]
    rw [hu]
    rcases hpca with h | h
    · rw [h]
    · rw [h]
      dsimp only
      rw [if_neg (show ¬ ((0 : Nat) ≠ 0 ∧ 0 < u.password_changed_at) by simp)]

/-- Fixture JWT without a session_id claim. -/
def nJwt : Jwt :=
  { zJwt with claims := { zJwt.claims with session_id := none } }

/-- Fixture store with an active session but a user whose
password_changed_at is far newer than any mint instant. -/
def fStore : Store :=
  { users := [{ rUser with password_changed_at := 999999 }]
    sessions := [rSession]
    email_verifications := []
    reset_tokens := [] }

/-- Witness for C8 amended: the no-session_id token validates against any
store; the zero-claim token validates against a store whose user changed
the password long after mint. -/
theorem c8_witness :
    (nJwt.signature_valid = true ∧ (10 : Nat) < nJwt.claims.exp ∧
      nJwt.claims.session_id = none ∧
      validate_jwt_token zStore nJwt 10 = ValidateOutcome.valid nJwt.claims) ∧
    (zJwt.signature_valid = true ∧ (10 : Nat) < zJwt.claims.exp ∧
      zJwt.claims.session_id = some 1 ∧
      fStore.sessions.find? (fun x => x.id == 1 && x.status == SessionStatus.active)
        = some rSession ∧
      rSession.is_expired 10 = false ∧
      fStore.getUser rSession.userEmail = some { rUser with password_changed_at := 999999 } ∧
      validate_jwt_token fStore zJwt 10 = ValidateOutcome.valid zJwt.claims) :=
  ⟨⟨by decide, by decide, by decide,
    c8_zero_claim_skips_freshness_check.1 zStore nJwt 10 (by decide) (by decide) (by decide)⟩,
   ⟨by decide, by decide, by decide, by decide, by decide, by decide,
    c8_zero_claim_skips_freshness_check.2 fStore zJwt 10 1 rSession
      { rUser with password_changed_at := 999999 } (by decide) (by decide) (by decide)
      (by decide) (by decide) (by decide) (Or.inr (by decide))⟩⟩

/-- C10: a reset token is created only for an existing, active account with
that lowercased email; for an inactive account nothing is created and the
store is untouched, exactly as for a non-existent email; and the boundary
response of the reset-request view is the same fixed accepted answer
whatever the user store contains, so the caller cannot distinguish
non-existent, inactive and existing-active accounts. -/
theorem c10_reset_request_no_account_enumeration :
    (∀ (st : Store) (email ftok : String) (nid now : Nat),
      (∀ u ∈ st.users, u.email = lower_string email → u.is_active = false) →
      create_password_reset_token st email ftok nid now = (none, st)) ∧
    (∀ (st : Store) (email ftok : String) (nid now : Nat),
      (∀ u ∈ st.users, u.email ≠ lower_string email) →
      create_password_reset_token st email ftok nid now = (none, st)) ∧
    (∀ (st : Store) (email ftok : String) (nid now : Nat) (u : AuthUser),
      st.users.find? (fun v => v.email == lower_string email && v.is_active) = some u →
      (create_password_reset_token st email ftok nid now).1 = some ftok) ∧
    (∀ (st1 st2 : Store) (email : String) (c : RateCell) (ftok1 ftok2 : String)
        (nid1 nid2 now : Nat),
      (password_reset_request_view st1 email true c ftok1 nid1 now).1
        = (password_reset_request_view st2 email true c ftok2 nid2 now).1) := by
  refine ⟨?_, ?_, ?_, ?_⟩
  · intro st email ftok nid now h
    unfold create_password_reset_token
    rw [List.find?_eq_none.2]
    intro u hu
    simp only [Bool.and_eq_true, beq_iff_eq, not_and]
    intro hmail
    rw [h u hu hmail]
    simp
  · intro st email ftok nid now h
    unfold create_password_reset_token
    rw [List.find?_eq_none.2]
    intro u hu
    simp only [Bool.and_eq_true, beq_iff_eq, not_and]
    intro hmail
    exact absurd hmail (h u hu)
  · intro st email ftok nid now u hfind
    unfold create_password_reset_token
    rw [hfind]
    rfl
  · intro st1 st2 email c ftok1 ftok2 nid1 nid2 now
    unfold password_reset_request_view
    rcases h : check_rate_limit c 3 3600 now with ⟨allowed, c'⟩
    cases allowed <;> simp

/-- Fixture store holding only an inactive account. -/
def iStore : Store :=
  { users := [{ wUser with email := "i@x.com", is_active := false }]
    sessions := []
    email_verifications := []
    reset_tokens := [] }

/-- Witness for C10: inactive account and missing account both yield no
token and an untouched store; an active account yields a token; and the
boundary response is identical across the three stores. -/
theorem c10_witness :
    ((∀ u ∈ iStore.users, u.email = lower_string "i@x.com" → u.is_active = false) ∧
      create_password_reset_token iStore "i@x.com" "ftok" 5 40 = (none, iStore)) ∧
    ((∀ u ∈ wStore.users, u.email ≠ lower_string "i@x.com") ∧
      create_password_reset_token wStore "i@x.com" "ftok" 5 40 = (none, wStore)) ∧
    (wStore.users.find? (fun v => v.email == lower_string "w@x.com" && v.is_active)
        = some wUser ∧
      (create_password_reset_token wStore "w@x.com" "ftok" 5 40).1 = some "ftok") ∧
    (password_reset_request_view iStore "i@x.com" true none "ftok" 5 40).1
      = (password_reset_request_view wStore "i@x.com" true none "ftok" 5 40).1 :=
  ⟨⟨by decide,
    c10_reset_request_no_account_enumeration.1 iStore "i@x.com" "ftok" 5 40 (by decide)⟩,
   ⟨by decide,
    c10_reset_request_no_account_enumeration.2.1 wStore "i@x.com" "ftok" 5 40 (by decide)⟩,
   ⟨by decide,
    c10_reset_request_no_account_enumeration.2.2.1 wStore "w@x.com" "ftok" 5 40 wUser
      (by decide)⟩,
   c10_reset_request_no_account_enumeration.2.2.2 iStore wStore "i@x.com" none "ftok"
     "ftok" 5 5 40⟩

/-- Allowed status step of the session state machine claimed by the spec:
stay put, or move out of active. -/
def statusOK (old new : SessionStatus) : Prop :=
  new = old ∨ old = SessionStatus.active

instance (a b : SessionStatus) : Decidable (statusOK a b) := by
  unfold statusOK
  infer_instance

/-- Every surviving session row traces back to a row of the previous store
with the same id whose status evolved by an allowed step. -/
def sessionsEvolve (before after : List UserSession) : Prop :=
  ∀ s' ∈ after, ∃ s ∈ before, s'.id = s.id ∧ statusOK s.status s'.status

instance (l m : List UserSession) : Decidable (sessionsEvolve l m) := by
  unfold sessionsEvolve
  infer_instance

/-- An unchanged session list evolves trivially. -/
theorem sessionsEvolve_refl (l : List UserSession) : sessionsEvolve l l :=
  fun s' h => ⟨s', h, rfl, Or.inl rfl⟩

/-- A pointwise allowed map evolves the list. -/
theorem sessionsEvolve_map (l : List UserSession) (f : UserSession → UserSession)
    (h : ∀ s ∈ l, (f s).id = s.id ∧ statusOK s.status (f s).status) :
    sessionsEvolve l (l.map f) := by
  intro s' hs'
  obtain ⟨s, hs, heq⟩ := List.mem_map.1 hs'
  exact ⟨s, hs, by rw [← heq]; exact (h s hs).1, by rw [← heq]; exact (h s hs).2⟩

/-- Evolution restricted to a subcollection (deletion is allowed). -/
theorem sessionsEvolve_sub (l m m' : List UserSession)
    (h : sessionsEvolve l m) (hsub : ∀ x ∈ m', x ∈ m) : sessionsEvolve l m' :=
  fun s' hs' => h s' (hsub s' hs')

/-- A guarded status overwrite is an allowed map step whenever the guard
implies the row is active. -/
theorem ite_step_ok (s : UserSession) (c : Bool) (news : SessionStatus)
    (h : c = true → s.status = SessionStatus.active) :
    (if c = true then { s with status := news } else s).id = s.id ∧
    statusOK s.status (if c = true then { s with status := news } else s).status := by
  by_cases hc : c = true
  · rw [if_pos hc]
    exact ⟨rfl, Or.inr (h hc)⟩
  · rw [if_neg hc]
    exact ⟨rfl, Or.inl rfl⟩

/-- Saving one row keyed by the id of an active member row is an allowed
evolution, given the primary keys are unique. -/
theorem sessionsEvolve_saveSession (st : Store) (s b : UserSession)
    (hmem : s ∈ st.sessions) (hid : b.id = s.id)
    (hstat : statusOK s.status b.status)
    (hnodup : (st.sessions.map (fun x => x.id)).Nodup) :
    sessionsEvolve st.sessions ((st.saveSession b).sessions) := by
  intro s' hs'
  simp only [Store.saveSession] at hs'
  obtain ⟨t, ht, heq⟩ := List.mem_map.1 hs'
  by_cases h : (t.id == b.id) = true
  · rw [if_pos h] at heq
    have hts : t = s := List.inj_on_of_nodup_map hnodup ht hmem (by
      simp only [beq_iff_eq] at h
      rw [h, hid])
    refine ⟨s, hmem, ?_, ?_⟩
    · rw [← heq, hid]
    · rw [← heq]; exact hstat
  · rw [if_neg h] at heq
    exact ⟨t, ht, by rw [← heq], by rw [← heq]; exact Or.inl rfl⟩

/-- The periodic sweep only moves past-expiry active rows to expired and
deletes old rows. -/
theorem cleanup_sessions_evolve (st : Store) (now : Nat) :
    sessionsEvolve st.sessions (cleanup_expired_sessions st now).sessions := by
  unfold cleanup_expired_sessions
  dsimp only
  have h1 := sessionsEvolve_map st.sessions
    (fun s => if decide (s.expires_at < now) && s.status == SessionStatus.active then
        { s with status := SessionStatus.expired } else s)
    (by
      intro s _
      refine ite_step_ok s _ _ ?_
      intro hc
      simp only [Bool.and_eq_true, beq_iff_eq] at hc
      exact hc.2)
  exact sessionsEvolve_sub _ _ _ h1 (fun x hx => List.mem_of_mem_filter hx)

/-- Logout of one session only revokes an active row. -/
theorem logout_sessions_evolve (st : Store) (tokstr : String)
    (hnodup : (st.sessions.map (fun x => x.id)).Nodup) :
    sessionsEvolve st.sessions ((logout_user st tokstr).2).sessions := by
  unfold logout_user
  cases hf : st.sessions.find?
      (fun s => s.session_token == tokstr && s.status == SessionStatus.active) with
  | none => exact sessionsEvolve_refl _
  | some s =>
    dsimp only
    have hmem := List.mem_of_find?_eq_some hf
    have hact := List.find?_some hf
    simp only [Bool.and_eq_true, beq_iff_eq] at hact
    exact sessionsEvolve_saveSession st s s.revoke hmem rfl (Or.inr hact.2) hnodup

/-- Logout-all only revokes active rows of the user. -/
theorem logout_all_sessions_evolve (st : Store) (user : AuthUser) :
    sessionsEvolve st.sessions ((logout_all_devices st user).2).sessions := by
  unfold logout_all_devices
  dsimp only
  refine sessionsEvolve_map _ _ ?_
  intro s _
  refine ite_step_ok s _ _ ?_
  intro hc
  simp only [Bool.and_eq_true, beq_iff_eq] at hc
  exact hc.2

/-- Admin revocation of one session only revokes an active row. -/
theorem revoke_sessions_evolve (st : Store) (user : AuthUser) (sid : Nat)
    (hnodup : (st.sessions.map (fun x => x.id)).Nodup) :
    sessionsEvolve st.sessions ((revoke_session st user sid).2).sessions := by
  unfold revoke_session
  cases hf : st.sessions.find? (fun s =>
      s.id == sid && s.userEmail == user.email && s.status == SessionStatus.active) with
  | none => exact sessionsEvolve_refl _
  | some s =>
    dsimp only
    have hmem := List.mem_of_find?_eq_some hf
    have hact := List.find?_some hf
    simp only [Bool.and_eq_true, beq_iff_eq] at hact
    exact sessionsEvolve_saveSession st s s.revoke hmem rfl (Or.inr hact.2) hnodup

/-- Refresh only rotates an active row in place (same status) or marks an
expired-by-time active row expired, whatever the directory answers. -/
theorem refresh_sessions_evolve (st : Store) (rt fs fr : String)
    (org_result : Option OrgInfo) (now : Nat)
    (hnodup : (st.sessions.map (fun x => x.id)).Nodup) :
    sessionsEvolve st.sessions ((refresh_session st rt fs fr org_result now).2).sessions := by
  unfold refresh_session
  cases hf : st.sessions.find?
      (fun s => s.refresh_token == rt && s.status == SessionStatus.active) with
  | none => exact sessionsEvolve_refl _
  | some s =>
    dsimp only
    have hmem := List.mem_of_find?_eq_some hf
    have hact := List.find?_some hf
    simp only [Bool.and_eq_true, beq_iff_eq] at hact
    by_cases hexp : s.is_expired now = true
    · rw [if_pos hexp]
      exact sessionsEvolve_saveSession st s { s with status := SessionStatus.expired }
        hmem rfl (Or.inr hact.2) hnodup
    · rw [if_neg hexp]
      have hse : sessionsEvolve st.sessions
          ((st.saveSession (s.refresh fs fr now)).sessions) :=
        sessionsEvolve_saveSession st s (s.refresh fs fr now) hmem rfl
          (Or.inl rfl) hnodup
      cases (st.saveSession (s.refresh fs fr now)).getUser (s.refresh fs fr now).userEmail with
      | none => exact hse
      | some u =>
        cases org_result with
        | none => exact hse
        | some org => exact hse

/-- A password reset only revokes active rows of the user, in every
branch. -/
theorem reset_sessions_evolve (st : Store) (tok pw : String) (now : Nat) :
    sessionsEvolve st.sessions ((reset_password st tok pw now).2).sessions := by
  unfold reset_password
  cases hf : st.reset_tokens.find? (fun v => v.token == tok) with
  | none => exact sessionsEvolve_refl _
  | some row =>
    dsimp only
    by_cases hval : (! row.is_valid now) = true
    · rw [if_pos hval]
      exact sessionsEvolve_refl _
    · rw [if_neg hval]
      cases hu : st.getUser row.userEmail with
      | none => exact sessionsEvolve_refl _
      | some user =>
        dsimp only [Store.saveUser, Store.saveResetToken]
        refine sessionsEvolve_map _ _ ?_
        intro s _
        refine ite_step_ok s _ _ ?_
        intro hc
        simp only [Bool.and_eq_true, beq_iff_eq] at hc
        exact hc.2

/-- A password change through the view only revokes active rows of the
user (the optional logout-all branch), never touching non-active rows. -/
theorem change_password_sessions_evolve (st : Store) (user : AuthUser)
    (pw : String) (logout_all : Bool) (cid : Option Nat) (now : Nat) :
    sessionsEvolve st.sessions
      ((change_password st user pw logout_all cid now).sessions) := by
  unfold change_password
  by_cases hla : logout_all = true
  · rw [if_pos hla]
    dsimp only [Store.saveUser]
    refine sessionsEvolve_map _ _ ?_
    intro s _
    refine ite_step_ok s _ _ ?_
    intro hc
    simp only [Bool.and_eq_true, beq_iff_eq] at hc
    exact hc.1.2
  · rw [if_neg hla]
    exact sessionsEvolve_refl _

/-- The fresh session starts active, and the lazy sweep only stamps
expired on past-expiry rows of the user (whatever their prior status). -/
theorem create_session_status (st : Store) (user : AuthUser) (ip : String)
    (ua did : Option String) (dt : String) (dn : Option String)
    (fs fr : String) (nid now : Nat) :
    (create_user_session st user ip ua did dt dn fs fr nid now).1.status
      = SessionStatus.active ∧
    (∀ s' ∈ ((create_user_session st user ip ua did dt dn fs fr nid now).2).sessions,
      (∃ s ∈ st.sessions, s'.id = s.id ∧
        (statusOK s.status s'.status ∨
          (s'.status = SessionStatus.expired ∧ s.expires_at < now)))
      ∨ s' = (create_user_session st user ip ua did dt dn fs fr nid now).1) := by
  constructor
  · rfl
  · intro s' hs'
    unfold create_user_session at hs'
    dsimp only at hs'
    rcases List.mem_append.1 hs' with h | h
    · obtain ⟨s, hs, heq⟩ := List.mem_map.1 h
      left
      by_cases hcond : (s.userEmail == user.email && decide (s.expires_at < now)) = true
      · rw [if_pos hcond] at heq
        refine ⟨s, hs, by rw [← heq], Or.inr ⟨by rw [← heq], ?_⟩⟩
        simp only [Bool.and_eq_true, decide_eq_true_eq] at hcond
        exact hcond.2
      · rw [if_neg hcond] at heq
        exact ⟨s, hs, by rw [← heq], Or.inl (Or.inl (by rw [← heq]))⟩
    · right
      simpa using h

/-- Fixture revoked session far past its expiry. -/
def oSession : UserSession :=
  { rSession with status := SessionStatus.revoked, expires_at := 5 }

/-- Fixture store holding only oSession. -/
def oStore : Store :=
  { users := [rUser]
    sessions := [oSession]
    email_verifications := []
    reset_tokens := [] }

/-- C2 counterexample: the lazy sweep inside create_user_session carries no
status filter, so logging in relabels an already-revoked past-expiry
session of the user as expired — a transition out of the revoked state,
which the claim says no operation ever performs. -/
theorem c2_counterexample :
    oSession.status = SessionStatus.revoked ∧
    ((create_user_session oStore rUser "ip" none none "web" none "ns" "nr" 2 10).2).sessions.find?
        (fun s => s.id == oSession.id)
      = some { oSession with status := SessionStatus.expired } := by
  decide

/-- C2 amended: every newly created session starts active; the periodic
cleanup sweep, logout, logout-all, refresh, password reset, password
change and admin revoke never change the status of a non-active session
and only move active sessions to expired or revoked; the one exception is
the lazy sweep inside create_user_session, which stamps expired on every
past-expiry session of the user regardless of its prior status (so a
revoked past-expiry row is relabelled expired there). -/
theorem c2_session_state_machine :
    (∀ (st : Store) (user : AuthUser) (ip : String) (ua did : Option String)
        (dt : String) (dn : Option String) (fs fr : String) (nid now : Nat),
      (create_user_session st user ip ua did dt dn fs fr nid now).1.status
        = SessionStatus.active ∧
      (∀ s' ∈ ((create_user_session st user ip ua did dt dn fs fr nid now).2).sessions,
        (∃ s ∈ st.sessions, s'.id = s.id ∧
          (statusOK s.status s'.status ∨
            (s'.status = SessionStatus.expired ∧ s.expires_at < now)))
        ∨ s' = (create_user_session st user ip ua did dt dn fs fr nid now).1)) ∧
    (∀ (st : Store) (now : Nat),
      sessionsEvolve st.sessions (cleanup_expired_sessions st now).sessions) ∧
    (∀ (st : Store) (tokstr : String),
      (st.sessions.map (fun x => x.id)).Nodup →
      sessionsEvolve st.sessions ((logout_user st tokstr).2).sessions) ∧
    (∀ (st : Store) (user : AuthUser),
      sessionsEvolve st.sessions ((logout_all_devices st user).2).sessions) ∧
    (∀ (st : Store) (rt fs fr : String) (org_result : Option OrgInfo) (now : Nat),
      (st.sessions.map (fun x => x.id)).Nodup →
      sessionsEvolve st.sessions ((refresh_session st rt fs fr org_result now).2).sessions) ∧
    (∀ (st : Store) (tok pw : String) (now : Nat),
      sessionsEvolve st.sessions ((reset_password st tok pw now).2).sessions) ∧
    (∀ (st : Store) (user : AuthUser) (pw : String) (la : Bool) (cid : Option Nat)
        (now : Nat),
      sessionsEvolve st.sessions ((change_password st user pw la cid now).sessions)) ∧
    (∀ (st : Store) (user : AuthUser) (sid : Nat),
      (st.sessions.map (fun x => x.id)).Nodup →
      sessionsEvolve st.sessions ((revoke_session st user sid).2).sessions) :=
  ⟨fun st user ip ua did dt dn fs fr nid now =>
      create_session_status st user ip ua did dt dn fs fr nid now,
   cleanup_sessions_evolve,
   fun st tokstr h => logout_sessions_evolve st tokstr h,
   logout_all_sessions_evolve,
   fun st rt fs fr org_result now h =>
      refresh_sessions_evolve st rt fs fr org_result now h,
   reset_sessions_evolve,
   change_password_sessions_evolve,
   fun st user sid h => revoke_sessions_evolve st user sid h⟩

/-- Witness for C2 amended at concrete stores: a fresh session is active,
the cleanup sweep on oStore is an allowed evolution, and logout on rStore
(whose session ids are unique) is an allowed evolution. -/
theorem c2_witness :
    ((create_user_session oStore rUser "ip" none none "web" none "ns" "nr" 2 10).1.status
      = SessionStatus.active) ∧
    sessionsEvolve oStore.sessions (cleanup_expired_sessions oStore 10).sessions ∧
    ((rStore.sessions.map (fun x => x.id)).Nodup ∧
      sessionsEvolve rStore.sessions ((logout_user rStore "rs").2).sessions) :=
  ⟨(c2_session_state_machine.1 oStore rUser "ip" none none "web" none "ns" "nr" 2 10).1,
   c2_session_state_machine.2.1 oStore 10,
   by decide,
   c2_session_state_machine.2.2.1 rStore "rs" (by decide)⟩

end AuthCore
